import Mathlib

/-!
Shallow embedding of `check_ram.py` (haproxy-agent-buildins).

Modelling conventions:
* Python `float` values are modelled as exact rationals (`ℚ`); every float
  produced by the script is obtained from an integer literal or by the exact
  operations `* 1024`, `* 1024 * 1024`, `/ 1024`, so this is faithful on the
  inputs considered here.  `int(...)` / `"%d"` truncation toward zero is
  modelled by `Nat` division (non-negative case) resp. `Int.tdiv`.
* `/proc/meminfo` is modelled as either an unreadable source (`open` raised,
  carrying the exception text) or a list of `key, value-in-kB` pairs, exactly
  the data the line loop of `check_ram` consumes.
* Control effects are explicit: `MainOutcome` records the lines printed so
  far together with either a Python return value (`PyValue`), a process exit
  (`exit` / `sys.exit`), or an uncaught exception; `ProcOutcome` is the
  observable behaviour of the `if __name__ == "__main__"` block.
* Python `float(s)` string parsing is modelled by `py_float`, which accepts
  the plain decimal forms (optional sign, digits, at most one dot); this is a
  value-faithful subset of CPython float syntax.
-/

namespace CheckRam

/-- Standard exit codes for Nagios (check_ram.py lines 27-30). -/
def OK : ℕ := 0

/-- Nagios WARNING code. -/
def WARNING : ℕ := 1

/-- Nagios CRITICAL code. -/
def CRITICAL : ℕ := 2

/-- Nagios UNKNOWN code. -/
def UNKNOWN : ℕ := 3

/-- Numeric value of a list of decimal digit characters. -/
def digitsToNat (cs : List Char) : ℕ :=
  cs.foldl (fun a c => a * 10 + (c.toNat - 48)) 0

/-- All characters are decimal digits. -/
def allDigits (cs : List Char) : Bool :=
  cs.all (fun c => c.isDigit)

/-- Split a character list at the first dot, if any. -/
def splitAtDot : List Char → List Char × Option (List Char)
  | [] => ([], none)
  | c :: rest =>
    if c = '.' then ([], some rest)
    else (c :: (splitAtDot rest).1, (splitAtDot rest).2)

/-- Unsigned part of Python `float(s)`: `digits`, `digits.digits`,
`digits.` or `.digits` (at most one dot, at least one digit). -/
def parseUnsigned (cs : List Char) : Option ℚ :=
  match splitAtDot cs with
  | (ip, none) =>
    if ip ≠ [] ∧ allDigits ip then some ((digitsToNat ip : ℚ)) else none
  | (ip, some fp) =>
    if fp.contains '.' then none
    else if allDigits ip ∧ allDigits fp ∧ (ip ≠ [] ∨ fp ≠ []) then
      some ((digitsToNat ip : ℚ) + (digitsToNat fp : ℚ) / (10 : ℚ) ^ fp.length)
    else none

/-- Model of Python `float(s)` on plain decimal strings: optional single
leading sign, then an unsigned decimal.  `none` models `ValueError`. -/
def py_float : List Char → Option ℚ
  | [] => none
  | c :: rest =>
    if c = '+' then parseUnsigned rest
    else if c = '-' then (parseUnsigned rest).map (fun q => -q)
    else parseUnsigned (c :: rest)

/-- Python `s[-n:]` (the last `n` characters, or all of them if shorter). -/
def lastN (n : ℕ) (cs : List Char) : List Char := cs.drop (cs.length - n)

/-- Python `s[:-n]` (everything but the last `n` characters). -/
def dropLastN (n : ℕ) (cs : List Char) : List Char := cs.take (cs.length - n)

/-- `megs = ["MB", "Mb", "mb", "mB", "M", "m"]` (check_ram.py line 197). -/
def megs : List (List Char) :=
  [['M', 'B'], ['M', 'b'], ['m', 'b'], ['m', 'B'], ['M'], ['m']]

/-- `gigs = ["GB", "Gb", "gb", "gB", "G", "g"]` (check_ram.py line 198). -/
def gigs : List (List Char) :=
  [['G', 'B'], ['G', 'b'], ['g', 'b'], ['g', 'B'], ['G'], ['g']]

/-- Outcome of normalising one threshold string (check_ram.py lines 203-242):
either a value and a percent flag, or `get_threshold` printed
"UNKNOWN: invalid threshold given" and called `exit(UNKNOWN)`, or indexing
`s[-1]` raised `IndexError` (empty string). -/
inductive ParseOutcome where
  | ok (value : ℚ) (percent : Bool)
  | exitUnknown
  | indexError
deriving DecidableEq

/-- Absolute branch helper: `get_threshold(prefix) * factor`, mode absolute. -/
def scaled (factor : ℚ) (pre : List Char) : ParseOutcome :=
  match py_float pre with
  | some v => .ok (v * factor) false
  | none => .exitUnknown

/-- The threshold-normalisation chain of `main` (check_ram.py lines 216-228,
identically 230-242): `%` suffix, two- then one-character `megs` match, two-
then one-character `gigs` match, else the whole string as a float in KB. -/
def parse_threshold (cs : List Char) : ParseOutcome :=
  match cs.getLast? with
  | none => .indexError
  | some lastc =>
    if lastc = '%' then
      match py_float (dropLastN 1 cs) with
      | some v => .ok v true
      | none => .exitUnknown
    else if lastN 2 cs ∈ megs then scaled 1024 (dropLastN 2 cs)
    else if [lastc] ∈ megs then scaled 1024 (dropLastN 1 cs)
    else if lastN 2 cs ∈ gigs then scaled (1024 * 1024) (dropLastN 2 cs)
    else if [lastc] ∈ gigs then scaled (1024 * 1024) (dropLastN 1 cs)
    else
      match py_float cs with
      | some v => .ok v false
      | none => .exitUnknown

/-- The meminfo fields gathered by the line loop of `check_ram`
(check_ram.py lines 47-63); `membuffers` is initialised to `0`, the others
to `None`. -/
structure MemStats where
  memtotal : Option ℕ
  memfree : Option ℕ
  memcached : Option ℕ
  membuffers : ℕ
  memavailable : Option ℕ
deriving DecidableEq

/-- Initial field values (check_ram.py lines 47-51). -/
def initStats : MemStats := ⟨none, none, none, 0, none⟩

/-- One iteration of the meminfo line loop (check_ram.py lines 52-63). -/
def scanLine (st : MemStats) (kv : String × ℕ) : MemStats :=
  if kv.1 = "MemTotal:" then { st with memtotal := some kv.2 }
  else if kv.1 = "MemFree:" then { st with memfree := some kv.2 }
  else if kv.1 = "Cached:" then { st with memcached := some kv.2 }
  else if kv.1 = "Buffers:" then { st with membuffers := kv.2 }
  else if kv.1 = "MemAvailable:" then { st with memavailable := some kv.2 }
  else st

/-- The whole meminfo line loop. -/
def scan_meminfo (lines : List (String × ℕ)) : MemStats :=
  lines.foldl scanLine initStats

/-- Free-memory accounting (check_ram.py lines 69-74).  Note the Python
truthiness test `elif memavailable:`: a present but zero `MemAvailable`
is falsy and falls through to the summation branch. -/
def total_free (nocache : Bool) (memfree memcached membuffers : ℕ)
    (memavailable : Option ℕ) : ℕ :=
  if nocache then memfree
  else
    match memavailable with
    | some a => if a ≠ 0 then a else memfree + memcached + membuffers
    | none => memfree + memcached + membuffers

/-- `total_used_megs` (check_ram.py line 76): `%d` of
`float(memtotal - memfree - memcached - membuffers) / 1024`,
i.e. truncation toward zero. -/
def total_used_megs (memtotal memfree memcached membuffers : ℕ) : ℤ :=
  Int.tdiv ((memtotal : ℤ) - (memfree : ℤ) - (memcached : ℤ) - (membuffers : ℤ)) 1024

/-- The performance-data tag appended to every status message
(check_ram.py line 117): `"|memused=%d;%d;" % (total_used_megs, memtotal_megs)`. -/
def perf_tag (memtotal memfree memcached membuffers : ℕ) : String :=
  "|memused=" ++ toString (total_used_megs memtotal memfree memcached membuffers)
    ++ ";" ++ toString (memtotal / 1024) ++ ";"

/-- A Python value returned by `check_ram`/`main`: either a bare int
(the error paths) or the `[message, state]` list (the success path). -/
inductive PyValue where
  | int (n : ℕ)
  | pair (msg : String) (state : ℕ)
deriving DecidableEq

/-- Observable outcome of calling `main` (or `check_ram`): the lines printed,
then either a returned value, a process exit, or an uncaught exception. -/
inductive MainOutcome where
  | ret (lines : List String) (v : PyValue)
  | exited (lines : List String) (code : ℕ)
  | raised (lines : List String) (exc : String)
deriving DecidableEq

/-- Status evaluation and message formatting of `check_ram` once the fields
are in hand (check_ram.py lines 69-118).  In percentage mode
`int(float(total_free) / float(memtotal) * 100)` raises `ZeroDivisionError`
when `memtotal = 0`; otherwise it is the floor, modelled by Nat division. -/
def ram_status_eval (warning_threshold critical_threshold : ℚ)
    (percent nocache : Bool) (memtotal memfree memcached membuffers : ℕ)
    (memavailable : Option ℕ) (pre : List String) : MainOutcome :=
  let tf := total_free nocache memfree memcached membuffers memavailable
  let used_megs := total_used_megs memtotal memfree memcached membuffers
  let free_megs := tf / 1024
  let memtotal_megs := memtotal / 1024
  if percent then
    if memtotal = 0 then .raised pre "ZeroDivisionError"
    else
      let percentage_free := tf * 100 / memtotal
      if (percentage_free : ℚ) < critical_threshold then
        .ret pre (.pair ("RAM CRITICAL: " ++ toString percentage_free
          ++ "% ram free (" ++ toString used_megs ++ "/" ++ toString memtotal_megs
          ++ " MB used)" ++ perf_tag memtotal memfree memcached membuffers) CRITICAL)
      else if (percentage_free : ℚ) < warning_threshold then
        .ret pre (.pair ("RAM WARNING: " ++ toString percentage_free
          ++ "% ram free (" ++ toString used_megs ++ "/" ++ toString memtotal_megs
          ++ " MB used)" ++ perf_tag memtotal memfree memcached membuffers) WARNING)
      else
        .ret pre (.pair ("RAM OK: " ++ toString percentage_free ++ "% ram free"
          ++ perf_tag memtotal memfree memcached membuffers) OK)
  else
    if (tf : ℚ) < critical_threshold then
      .ret pre (.pair ("RAM CRITICAL: " ++ toString free_megs
        ++ "MB ram free (" ++ toString used_megs ++ "/" ++ toString memtotal_megs
        ++ " MB used)" ++ perf_tag memtotal memfree memcached membuffers) CRITICAL)
    else if (tf : ℚ) < warning_threshold then
      .ret pre (.pair ("RAM WARNING: " ++ toString free_megs
        ++ "MB ram free (" ++ toString used_megs ++ "/" ++ toString memtotal_megs
        ++ " MB used)" ++ perf_tag memtotal memfree memcached membuffers) WARNING)
    else
      .ret pre (.pair ("RAM OK: " ++ toString free_megs ++ "MB ram free"
        ++ perf_tag memtotal memfree memcached membuffers) OK)

/-- The `/proc/meminfo` source: either `open` raises (with exception text),
or the file yields a list of `key, kilobyte-value` lines. -/
inductive MemSource where
  | unreadable (err : String)
  | readable (lines : List (String × ℕ))
deriving DecidableEq

/-- The `check_ram` function (check_ram.py lines 33-118). -/
def check_ram (warning_threshold critical_threshold : ℚ) (percent : Bool)
    (verbosity : ℕ) (nocache : Bool) (src : MemSource) : MainOutcome :=
  let pre := if 3 ≤ verbosity then ["Opening /proc/meminfo"] else []
  match src with
  | .unreadable e =>
    .ret (pre ++ ["RAM CRITICAL: Error opening /proc/meminfo - " ++ e]) (.int CRITICAL)
  | .readable lines =>
    let st := scan_meminfo lines
    match st.memtotal, st.memfree, st.memcached with
    | some t, some f, some c =>
      ram_status_eval warning_threshold critical_threshold percent nocache
        t f c st.membuffers st.memavailable pre
    | none, _, _ => .ret (pre ++ ["UNKNOWN: failed to get mem stats"]) (.int UNKNOWN)
    | _, none, _ => .ret (pre ++ ["UNKNOWN: failed to get mem stats"]) (.int UNKNOWN)
    | _, _, none => .ret (pre ++ ["UNKNOWN: failed to get mem stats"]) (.int UNKNOWN)

/-- The `main` function from the point where both threshold strings are
present (check_ram.py lines 194-278): normalise both thresholds, reject
mixed modes, range-check percentages (note: `sys.exit(1)`), require
`warning > critical`, then call `check_ram`. -/
def main (warning_str critical_str : String) (nocache : Bool)
    (verbosity : ℕ) (src : MemSource) : MainOutcome :=
  match parse_threshold warning_str.toList with
  | .indexError => .raised [] "IndexError"
  | .exitUnknown => .exited ["UNKNOWN: invalid threshold given"] UNKNOWN
  | .ok wv wp =>
    match parse_threshold critical_str.toList with
    | .indexError => .raised [] "IndexError"
    | .exitUnknown => .exited ["UNKNOWN: invalid threshold given"] UNKNOWN
    | .ok cv cp =>
      if wp = cp then
        if wp ∧ (wv < 0 ∨ 100 < wv) then
          .exited ["warning percentage must be between 0 and 100"] 1
        else if cp ∧ (cv < 0 ∨ 100 < cv) then
          .exited ["critical percentage must be between 0 and 100"] 1
        else if wv ≤ cv then
          .ret ["UNKNOWN: Critical threshold must be less than Warning threshold"]
            (.int UNKNOWN)
        else check_ram wv cv wp verbosity nocache src
      else
        .ret ["UNKNOWN: please make thresholds either units or percentages, not one of each"]
          (.int UNKNOWN)

/-- Observable behaviour of the whole process. -/
inductive ProcOutcome where
  | exited (lines : List String) (code : ℕ)
  | uncaught (lines : List String) (exc : String)
deriving DecidableEq

/-- The `if __name__ == "__main__"` block (check_ram.py lines 281-284):
`result = main(); print(result[0]); sys.exit(result[1])`.  Subscripting an
`int` return value raises an uncaught `TypeError`. -/
def main_block (warning_str critical_str : String) (nocache : Bool)
    (verbosity : ℕ) (src : MemSource) : ProcOutcome :=
  match main warning_str critical_str nocache verbosity src with
  | .exited ls code => .exited ls code
  | .raised ls e => .uncaught ls e
  | .ret ls (.pair msg state) => .exited (ls ++ [msg]) state
  | .ret ls (.int _) => .uncaught ls "TypeError"

/-- A meminfo snapshot used in the examples below. -/
def stdLines : List (String × ℕ) :=
  [("MemTotal:", 8000000), ("MemFree:", 1000000),
   ("Cached:", 2000000), ("Buffers:", 500000)]

/-- Characters that can occur in a plain decimal string accepted by
`py_float`: sign characters, the dot, and digits. -/
def goodChar (c : Char) : Prop := c = '+' ∨ c = '-' ∨ c = '.' ∨ c.isDigit

instance : DecidablePred goodChar := fun c => by
  unfold goodChar; infer_instance

theorem splitAtDot_none {cs ip : List Char} (h : splitAtDot cs = (ip, none)) :
    cs = ip := by
  induction cs generalizing ip with
  | nil =>
    simp only [splitAtDot, Prod.mk.injEq] at h
    exact h.1
  | cons c rest ih =>
    by_cases hc : c = '.'
    · simp [splitAtDot, hc] at h
    · simp only [splitAtDot, if_neg hc, Prod.mk.injEq] at h
      obtain ⟨h1, h2⟩ := h
      have hr : splitAtDot rest = ((splitAtDot rest).1, none) := by
        rw [← h2]
      rw [← h1, ← ih hr]

theorem splitAtDot_some {cs ip fp : List Char} (h : splitAtDot cs = (ip, some fp)) :
    cs = ip ++ '.' :: fp := by
  induction cs generalizing ip with
  | nil => simp [splitAtDot] at h
  | cons c rest ih =>
    by_cases hc : c = '.'
    · simp only [splitAtDot, if_pos hc, Prod.mk.injEq, Option.some.injEq] at h
      obtain ⟨h1, h2⟩ := h
      rw [← h1, ← h2, hc]
      rfl
    · simp only [splitAtDot, if_neg hc, Prod.mk.injEq] at h
      obtain ⟨h1, h2⟩ := h
      have hr : splitAtDot rest = ((splitAtDot rest).1, some fp) := by
        rw [← h2]
      rw [← h1]
      simpa using congrArg (c :: ·) (ih hr)

theorem allDigits_mem {cs : List Char} (h : allDigits cs = true) {c : Char}
    (hc : c ∈ cs) : c.isDigit := by
  simp only [allDigits, List.all_eq_true] at h
  exact h c hc

theorem parseUnsigned_chars {cs : List Char} {v : ℚ}
    (h : parseUnsigned cs = some v) : ∀ c ∈ cs, c = '.' ∨ c.isDigit := by
  intro c hc
  unfold parseUnsigned at h
  rcases hsp : splitAtDot cs with ⟨ip, o⟩
  rw [hsp] at h
  cases o with
  | none =>
    simp only at h
    split_ifs at h with hcond
    · rw [splitAtDot_none hsp] at hc
      exact Or.inr (allDigits_mem hcond.2 hc)
  | some fp =>
    simp only at h
    split_ifs at h with hdot hcond
    · rw [splitAtDot_some hsp] at hc
      rcases List.mem_append.1 hc with hip | hfp
      · exact Or.inr (allDigits_mem hcond.1 hip)
      · rcases List.mem_cons.1 hfp with rfl | hfp2
        · exact Or.inl rfl
        · exact Or.inr (allDigits_mem hcond.2.1 hfp2)

theorem py_float_chars {cs : List Char} {v : ℚ} (h : py_float cs = some v) :
    ∀ c ∈ cs, goodChar c := by
  intro c hc
  cases cs with
  | nil => simp [py_float] at h
  | cons c0 rest =>
    simp only [py_float] at h
    split_ifs at h with h1 h2
    · rcases List.mem_cons.1 hc with rfl | hr
      · exact Or.inl h1
      · rcases parseUnsigned_chars h c hr with hd | hd
        · exact Or.inr (Or.inr (Or.inl hd))
        · exact Or.inr (Or.inr (Or.inr hd))
    · rcases Option.map_eq_some'.1 h with ⟨w, hw, -⟩
      rcases List.mem_cons.1 hc with rfl | hr
      · exact Or.inr (Or.inl h2)
      · rcases parseUnsigned_chars hw c hr with hd | hd
        · exact Or.inr (Or.inr (Or.inl hd))
        · exact Or.inr (Or.inr (Or.inr hd))
    · rcases parseUnsigned_chars h c hc with hd | hd
      · exact Or.inr (Or.inr (Or.inl hd))
      · exact Or.inr (Or.inr (Or.inr hd))

theorem py_float_ne_nil {cs : List Char} {v : ℚ} (h : py_float cs = some v) :
    cs ≠ [] := by
  rintro rfl
  simp [py_float] at h

theorem py_float_none_of_bad {cs : List Char} {c : Char} (hc : c ∈ cs)
    (hb : ¬ goodChar c) : py_float cs = none := by
  cases h : py_float cs with
  | none => rfl
  | some v => exact absurd (py_float_chars h c hc) hb

theorem lastN_two_append (cs : List Char) (a b : Char) :
    lastN 2 (cs ++ [a, b]) = [a, b] := by
  unfold lastN
  rw [List.length_append]
  have h : cs.length + ([a, b] : List Char).length - 2 = cs.length := by simp
  rw [h]
  exact List.drop_left cs [a, b]

theorem dropLastN_two_append (cs : List Char) (a b : Char) :
    dropLastN 2 (cs ++ [a, b]) = cs := by
  unfold dropLastN
  rw [List.length_append]
  have h : cs.length + ([a, b] : List Char).length - 2 = cs.length := by simp
  rw [h]
  exact List.take_left cs [a, b]

theorem dropLastN_one_append (cs : List Char) (a : Char) :
    dropLastN 1 (cs ++ [a]) = cs := by
  unfold dropLastN
  rw [List.length_append]
  have h : cs.length + ([a] : List Char).length - 1 = cs.length := by simp
  rw [h]
  exact List.take_left cs [a]

theorem lastN_one_append {cs : List Char} (hne : cs ≠ []) (a : Char) :
    ∃ d, d ∈ cs ∧ lastN 2 (cs ++ [a]) = [d, a] := by
  have hpos : 0 < cs.length := List.length_pos.2 hne
  unfold lastN
  rw [List.length_append]
  have h : cs.length + ([a] : List Char).length - 2 = cs.length - 1 := by
    simp
  rw [h, List.drop_append_of_le_length (by omega : cs.length - 1 ≤ cs.length)]
  have hd1 : (cs.drop (cs.length - 1)).length = 1 := by
    rw [List.length_drop]; omega
  obtain ⟨d, hd⟩ := List.length_eq_one.1 hd1
  refine ⟨d, ?_, ?_⟩
  · have hdm : d ∈ cs.drop (cs.length - 1) := by simp [hd]
    exact List.drop_subset _ _ hdm
  · rw [hd]; rfl

theorem getLast?_append_two (cs : List Char) (a b : Char) :
    (cs ++ [a, b]).getLast? = some b := by
  have h : cs ++ [a, b] = (cs ++ [a]) ++ [b] := by simp
  rw [h]
  exact List.getLast?_concat _

theorem not_mem_megs_of_good {l : List Char} (hg : ∀ c ∈ l, goodChar c) :
    l ∉ megs := by
  intro hm
  simp only [megs, List.mem_cons, List.not_mem_nil, or_false] at hm
  rcases hm with rfl | rfl | rfl | rfl | rfl | rfl
  · exact absurd (hg 'M' (by simp)) (by decide)
  · exact absurd (hg 'M' (by simp)) (by decide)
  · exact absurd (hg 'm' (by simp)) (by decide)
  · exact absurd (hg 'm' (by simp)) (by decide)
  · exact absurd (hg 'M' (by simp)) (by decide)
  · exact absurd (hg 'm' (by simp)) (by decide)

theorem not_mem_gigs_of_good {l : List Char} (hg : ∀ c ∈ l, goodChar c) :
    l ∉ gigs := by
  intro hm
  simp only [gigs, List.mem_cons, List.not_mem_nil, or_false] at hm
  rcases hm with rfl | rfl | rfl | rfl | rfl | rfl
  · exact absurd (hg 'G' (by simp)) (by decide)
  · exact absurd (hg 'G' (by simp)) (by decide)
  · exact absurd (hg 'g' (by simp)) (by decide)
  · exact absurd (hg 'g' (by simp)) (by decide)
  · exact absurd (hg 'G' (by simp)) (by decide)
  · exact absurd (hg 'g' (by simp)) (by decide)

theorem pair_not_mem_megs {d a : Char} (h1 : a ≠ 'B') (h2 : a ≠ 'b') :
    [d, a] ∉ megs := by
  intro hm
  simp only [megs, List.mem_cons, List.not_mem_nil, or_false] at hm
  rcases hm with h | h | h | h | h | h <;>
    first
      | (injection h with g1 g2; injection g2 with g3 g4;
         first | exact h1 g3 | exact h2 g3)
      | (have hl := congrArg List.length h; simp at hl)

theorem pair_not_mem_gigs {d a : Char} (h1 : a ≠ 'B') (h2 : a ≠ 'b') :
    [d, a] ∉ gigs := by
  intro hm
  simp only [gigs, List.mem_cons, List.not_mem_nil, or_false] at hm
  rcases hm with h | h | h | h | h | h <;>
    first
      | (injection h with g1 g2; injection g2 with g3 g4;
         first | exact h1 g3 | exact h2 g3)
      | (have hl := congrArg List.length h; simp at hl)

theorem parse_threshold_numeric {cs : List Char} {v : ℚ} (h : py_float cs = some v) :
    parse_threshold cs = .ok v false := by
  have hne := py_float_ne_nil h
  have hchars := py_float_chars h
  obtain ⟨lc, hlc⟩ := Option.isSome_iff_exists.1 ((List.getLast?_isSome).2 hne)
  have hmem : lc ∈ cs := List.mem_of_mem_getLast? hlc
  have hgood := hchars lc hmem
  have hpct : lc ≠ '%' := by
    rintro rfl
    exact absurd hgood (by decide)
  have hg2 : ∀ c ∈ lastN 2 cs, goodChar c := fun c hcm =>
    hchars c (List.drop_subset _ _ hcm)
  have hg1 : ∀ c ∈ ([lc] : List Char), goodChar c := by
    intro c hcm
    rw [List.mem_singleton.1 hcm]
    exact hgood
  simp only [parse_threshold, hlc, if_neg hpct,
    if_neg (not_mem_megs_of_good hg2), if_neg (not_mem_megs_of_good hg1),
    if_neg (not_mem_gigs_of_good hg2), if_neg (not_mem_gigs_of_good hg1), h]

theorem parse_threshold_percent {cs : List Char} {v : ℚ} (h : py_float cs = some v) :
    parse_threshold (cs ++ ['%']) = .ok v true := by
  simp only [parse_threshold, List.getLast?_concat, ite_true, eq_self_iff_true,
    dropLastN_one_append, h]

theorem parse_threshold_megs {cs : List Char} {v : ℚ} (h : py_float cs = some v) :
    ∀ suf ∈ megs, parse_threshold (cs ++ suf) = .ok (v * 1024) false := by
  have hne := py_float_ne_nil h
  intro suf hs
  simp only [megs, List.mem_cons, List.not_mem_nil, or_false] at hs
  rcases hs with rfl | rfl | rfl | rfl | rfl | rfl
  · simp only [parse_threshold, getLast?_append_two, lastN_two_append, dropLastN_two_append]
    rw [if_neg (by decide : ¬ ('B' = '%')),
      if_pos (by decide : (['M', 'B'] : List Char) ∈ megs)]
    simp only [scaled, h]
  · simp only [parse_threshold, getLast?_append_two, lastN_two_append, dropLastN_two_append]
    rw [if_neg (by decide : ¬ ('b' = '%')),
      if_pos (by decide : (['M', 'b'] : List Char) ∈ megs)]
    simp only [scaled, h]
  · simp only [parse_threshold, getLast?_append_two, lastN_two_append, dropLastN_two_append]
    rw [if_neg (by decide : ¬ ('b' = '%')),
      if_pos (by decide : (['m', 'b'] : List Char) ∈ megs)]
    simp only [scaled, h]
  · simp only [parse_threshold, getLast?_append_two, lastN_two_append, dropLastN_two_append]
    rw [if_neg (by decide : ¬ ('B' = '%')),
      if_pos (by decide : (['m', 'B'] : List Char) ∈ megs)]
    simp only [scaled, h]
  · obtain ⟨d, hdmem, hlast⟩ := lastN_one_append hne 'M'
    simp only [parse_threshold, List.getLast?_concat, hlast, dropLastN_one_append]
    rw [if_neg (by decide : ¬ ('M' = '%')),
      if_neg (pair_not_mem_megs (by decide) (by decide)),
      if_pos (by decide : (['M'] : List Char) ∈ megs)]
    simp only [scaled, h]
  · obtain ⟨d, hdmem, hlast⟩ := lastN_one_append hne 'm'
    simp only [parse_threshold, List.getLast?_concat, hlast, dropLastN_one_append]
    rw [if_neg (by decide : ¬ ('m' = '%')),
      if_neg (pair_not_mem_megs (by decide) (by decide)),
      if_pos (by decide : (['m'] : List Char) ∈ megs)]
    simp only [scaled, h]

theorem parse_threshold_gigs {cs : List Char} {v : ℚ} (h : py_float cs = some v) :
    ∀ suf ∈ gigs, parse_threshold (cs ++ suf) = .ok (v * (1024 * 1024)) false := by
  have hne := py_float_ne_nil h
  intro suf hs
  simp only [gigs, List.mem_cons, List.not_mem_nil, or_false] at hs
  rcases hs with rfl | rfl | rfl | rfl | rfl | rfl
  · simp only [parse_threshold, getLast?_append_two, lastN_two_append, dropLastN_two_append]
    rw [if_neg (by decide : ¬ ('B' = '%')),
      if_neg (by decide : ¬ ((['G', 'B'] : List Char) ∈ megs)),
      if_neg (by decide : ¬ ((['B'] : List Char) ∈ megs)),
      if_pos (by decide : (['G', 'B'] : List Char) ∈ gigs)]
    simp only [scaled, h]
  · simp only [parse_threshold, getLast?_append_two, lastN_two_append, dropLastN_two_append]
    rw [if_neg (by decide : ¬ ('b' = '%')),
      if_neg (by decide : ¬ ((['G', 'b'] : List Char) ∈ megs)),
      if_neg (by decide : ¬ ((['b'] : List Char) ∈ megs)),
      if_pos (by decide : (['G', 'b'] : List Char) ∈ gigs)]
    simp only [scaled, h]
  · simp only [parse_threshold, getLast?_append_two, lastN_two_append, dropLastN_two_append]
    rw [if_neg (by decide : ¬ ('b' = '%')),
      if_neg (by decide : ¬ ((['g', 'b'] : List Char) ∈ megs)),
      if_neg (by decide : ¬ ((['b'] : List Char) ∈ megs)),
      if_pos (by decide : (['g', 'b'] : List Char) ∈ gigs)]
    simp only [scaled, h]
  · simp only [parse_threshold, getLast?_append_two, lastN_two_append, dropLastN_two_append]
    rw [if_neg (by decide : ¬ ('B' = '%')),
      if_neg (by decide : ¬ ((['g', 'B'] : List Char) ∈ megs)),
      if_neg (by decide : ¬ ((['B'] : List Char) ∈ megs)),
      if_pos (by decide : (['g', 'B'] : List Char) ∈ gigs)]
    simp only [scaled, h]
  · obtain ⟨d, hdmem, hlast⟩ := lastN_one_append hne 'G'
    simp only [parse_threshold, List.getLast?_concat, hlast, dropLastN_one_append]
    rw [if_neg (by decide : ¬ ('G' = '%')),
      if_neg (pair_not_mem_megs (by decide) (by decide)),
      if_neg (by decide : ¬ ((['G'] : List Char) ∈ megs)),
      if_neg (pair_not_mem_gigs (by decide) (by decide)),
      if_pos (by decide : (['G'] : List Char) ∈ gigs)]
    simp only [scaled, h]
  · obtain ⟨d, hdmem, hlast⟩ := lastN_one_append hne 'g'
    simp only [parse_threshold, List.getLast?_concat, hlast, dropLastN_one_append]
    rw [if_neg (by decide : ¬ ('g' = '%')),
      if_neg (pair_not_mem_megs (by decide) (by decide)),
      if_neg (by decide : ¬ ((['g'] : List Char) ∈ megs)),
      if_neg (pair_not_mem_gigs (by decide) (by decide)),
      if_pos (by decide : (['g'] : List Char) ∈ gigs)]
    simp only [scaled, h]

theorem parse_threshold_kb (cs : List Char) :
    parse_threshold (cs ++ ['K', 'B']) = .exitUnknown := by
  have hnone : py_float (cs ++ ['K', 'B']) = none :=
    py_float_none_of_bad (show ('B' : Char) ∈ cs ++ ['K', 'B'] by simp) (by decide)
  simp only [parse_threshold, getLast?_append_two, lastN_two_append, hnone]
  rw [if_neg (by decide : ¬ ('B' = '%')),
    if_neg (by decide : ¬ ((['K', 'B'] : List Char) ∈ megs)),
    if_neg (by decide : ¬ ((['B'] : List Char) ∈ megs)),
    if_neg (by decide : ¬ ((['K', 'B'] : List Char) ∈ gigs)),
    if_neg (by decide : ¬ ((['B'] : List Char) ∈ gigs))]

example : parse_threshold (String.toList "50%") = .ok 50 true := by rfl
example : parse_threshold (String.toList "10MB") = .ok 10240 false := by
  have h : parse_threshold (String.toList "10MB") = .ok ((10 : ℚ) * 1024) false := rfl
  rw [h]; norm_num
example : parse_threshold (String.toList "2G") = .ok 2097152 false := by
  have h : parse_threshold (String.toList "2G") = .ok ((2 : ℚ) * (1024 * 1024)) false := rfl
  rw [h]; norm_num
example : parse_threshold (String.toList "abc") = .exitUnknown := by rfl
example : parse_threshold (String.toList "100KB") = .exitUnknown := by rfl
example : parse_threshold (String.toList "1.5") = .ok (3 / 2) false := by
  have h : parse_threshold (String.toList "1.5") = .ok ((1 : ℚ) + 5 / 10 ^ 1) false := rfl
  rw [h]; norm_num
example :
    main_block "40%" "20%" false 0 (.readable stdLines) =
      .exited ["RAM OK: 43% ram free|memused=4394;7812;"] OK := by rfl
example :
    main_block "40%" "20%" true 0 (.readable stdLines) =
      .exited ["RAM CRITICAL: 12% ram free (4394/7812 MB used)|memused=4394;7812;"]
        CRITICAL := by rfl
example :
    main_block "50%" "1000" false 0 (.readable stdLines) =
      .uncaught ["UNKNOWN: please make thresholds either units or percentages, not one of each"]
        "TypeError" := by rfl

theorem pct_floor_eq (tf t : ℕ) (ht : 0 < t) :
    ((tf * 100 / t : ℕ) : ℤ) = ⌊(tf : ℚ) / (t : ℚ) * 100⌋ := by
  have htQ : (0 : ℚ) < (t : ℚ) := by exact_mod_cast ht
  have h1 : (tf : ℚ) / (t : ℚ) * 100 = ((tf * 100 : ℕ) : ℚ) / (t : ℚ) := by
    push_cast
    ring
  rw [h1, eq_comm, Int.floor_eq_iff]
  constructor
  · rw [le_div_iff₀ htQ]
    exact_mod_cast Nat.div_mul_le_self (tf * 100) t
  · rw [div_lt_iff₀ htQ]
    have h2 : tf * 100 < (tf * 100 / t + 1) * t := by
      rw [← Nat.div_lt_iff_lt_mul ht]
      exact Nat.lt_succ_self _
    exact_mod_cast h2

theorem ram_eval_true_unfold (wv cv : ℚ) (nocache : Bool) (t f c b : ℕ)
    (av : Option ℕ) (pre : List String) (htne : t ≠ 0) :
    ram_status_eval wv cv true nocache t f c b av pre =
      (if ((total_free nocache f c b av * 100 / t : ℕ) : ℚ) < cv then
        .ret pre (.pair ("RAM CRITICAL: " ++ toString (total_free nocache f c b av * 100 / t)
          ++ "% ram free (" ++ toString (total_used_megs t f c b) ++ "/"
          ++ toString (t / 1024) ++ " MB used)" ++ perf_tag t f c b) CRITICAL)
      else if ((total_free nocache f c b av * 100 / t : ℕ) : ℚ) < wv then
        .ret pre (.pair ("RAM WARNING: " ++ toString (total_free nocache f c b av * 100 / t)
          ++ "% ram free (" ++ toString (total_used_megs t f c b) ++ "/"
          ++ toString (t / 1024) ++ " MB used)" ++ perf_tag t f c b) WARNING)
      else
        .ret pre (.pair ("RAM OK: " ++ toString (total_free nocache f c b av * 100 / t)
          ++ "% ram free" ++ perf_tag t f c b) OK)) := by
  simp only [ram_status_eval, if_true]
  rw [if_neg htne]

theorem ram_eval_false_unfold (wv cv : ℚ) (nocache : Bool) (t f c b : ℕ)
    (av : Option ℕ) (pre : List String) :
    ram_status_eval wv cv false nocache t f c b av pre =
      (if ((total_free nocache f c b av : ℕ) : ℚ) < cv then
        .ret pre (.pair ("RAM CRITICAL: " ++ toString (total_free nocache f c b av / 1024)
          ++ "MB ram free (" ++ toString (total_used_megs t f c b) ++ "/"
          ++ toString (t / 1024) ++ " MB used)" ++ perf_tag t f c b) CRITICAL)
      else if ((total_free nocache f c b av : ℕ) : ℚ) < wv then
        .ret pre (.pair ("RAM WARNING: " ++ toString (total_free nocache f c b av / 1024)
          ++ "MB ram free (" ++ toString (total_used_megs t f c b) ++ "/"
          ++ toString (t / 1024) ++ " MB used)" ++ perf_tag t f c b) WARNING)
      else
        .ret pre (.pair ("RAM OK: " ++ toString (total_free nocache f c b av / 1024)
          ++ "MB ram free" ++ perf_tag t f c b) OK)) := by
  simp only [ram_status_eval, Bool.false_eq_true, if_false]

theorem scan_buffers_aux (lines : List (String × ℕ)) :
    ∀ st, (∀ kv ∈ lines, kv.1 ≠ "Buffers:") →
      (List.foldl scanLine st lines).membuffers = st.membuffers := by
  induction lines with
  | nil =>
    intro st _
    rfl
  | cons kv rest ih =>
    intro st h
    rw [List.foldl_cons, ih (scanLine st kv) (fun x hx => h x (List.mem_cons_of_mem kv hx))]
    have hkv : kv.1 ≠ "Buffers:" := h kv (List.mem_cons_self kv rest)
    unfold scanLine
    split_ifs <;> rfl

/-- C1: the claim says every error path (unparseable threshold, mixed modes,
out-of-range percentage, warning not strictly greater than critical,
unreadable metric source, incomplete snapshot) prints exactly one single-line
message and terminates with the corresponding exit code (UNKNOWN=3 resp.
CRITICAL=2), propagating no uncaught exception.  The code violates this: the
mixed-modes, incomplete-snapshot, unreadable-source and warning-not-greater
paths return a bare int from `main`, so `print(result[0])` in the
`__main__` block raises an uncaught `TypeError`, and the out-of-range
percentage path calls `sys.exit(1)` instead of exiting with UNKNOWN=3.
Only the unparseable-threshold path behaves as claimed. -/
theorem c1_error_paths_crash :
    main_block "50%" "1000" false 0 (.readable stdLines) =
      .uncaught ["UNKNOWN: please make thresholds either units or percentages, not one of each"]
        "TypeError"
    ∧ main_block "40%" "20%" false 0 (.readable []) =
      .uncaught ["UNKNOWN: failed to get mem stats"] "TypeError"
    ∧ main_block "40%" "20%" false 0 (.unreadable "Permission denied") =
      .uncaught ["RAM CRITICAL: Error opening /proc/meminfo - Permission denied"] "TypeError"
    ∧ main_block "10" "20" false 0 (.readable stdLines) =
      .uncaught ["UNKNOWN: Critical threshold must be less than Warning threshold"] "TypeError"
    ∧ main_block "150%" "10%" false 0 (.readable stdLines) =
      .exited ["warning percentage must be between 0 and 100"] 1
    ∧ main_block "abc" "20%" false 0 (.readable stdLines) =
      .exited ["UNKNOWN: invalid threshold given"] UNKNOWN :=
  ⟨rfl, rfl, rfl, rfl, rfl, rfl⟩

/-- C2 counterexample: the claim says a present `available_kb` takes
precedence even when its reported value is 0; but with
`memfree = 10, memcached = 20, membuffers = 5, memavailable = some 0` and
`no_cache` unset the code computes `total_free = 35`, not `0`. -/
theorem c2_available_zero_counterexample :
    total_free false 10 20 5 (some 0) = 35 ∧ total_free false 10 20 5 (some 0) ≠ 0 := by
  decide

/-- C2 (amended): if `no_cache` is set, `total_free = memfree`; otherwise if
`available_kb` is present and nonzero it takes precedence; otherwise (absent
or reported as 0) `total_free = memfree + memcached + membuffers`. -/
theorem c2_total_free_accounting (nocache : Bool) (memfree memcached membuffers : ℕ)
    (memavailable : Option ℕ) :
    (nocache = true →
      total_free nocache memfree memcached membuffers memavailable = memfree)
    ∧ (∀ a, nocache = false → memavailable = some a → a ≠ 0 →
      total_free nocache memfree memcached membuffers memavailable = a)
    ∧ (nocache = false → (memavailable = none ∨ memavailable = some 0) →
      total_free nocache memfree memcached membuffers memavailable
        = memfree + memcached + membuffers) := by
  refine ⟨?_, ?_, ?_⟩
  · rintro rfl
    simp [total_free]
  · rintro a rfl rfl ha
    simp [total_free, ha]
  · rintro rfl (rfl | rfl) <;> simp [total_free]

theorem c2_total_free_accounting_witness :
    total_free true 1 2 3 (some 7) = 1
    ∧ total_free false 1 2 3 (some 7) = 7
    ∧ total_free false 1 2 3 (some 0) = 6 :=
  ⟨(c2_total_free_accounting true 1 2 3 (some 7)).1 rfl,
   (c2_total_free_accounting false 1 2 3 (some 7)).2.1 7 rfl rfl (by decide),
   (c2_total_free_accounting false 1 2 3 (some 0)).2.2 rfl (Or.inr rfl)⟩

/-- C3: the claim says an out-of-range percentage threshold is reported as
UNKNOWN (message + exit code 3).  The code instead prints a message without
the UNKNOWN prefix and calls `sys.exit(1)`, exiting with code 1 (the
WARNING code), for both the warning and the critical threshold. -/
theorem c3_percent_range_exits_one :
    main_block "150%" "10%" false 0 (.readable stdLines) =
      .exited ["warning percentage must be between 0 and 100"] 1
    ∧ main_block "50%" "200%" false 0 (.readable stdLines) =
      .exited ["critical percentage must be between 0 and 100"] 1 :=
  ⟨rfl, rfl⟩

/-- C4: the claim (and the option help text) says a KB-suffixed threshold
string parses to an absolute threshold in kilobytes.  The code has no KB
case: for every numeric prefix the KB-suffixed string falls through to
`float(...)`, which raises `ValueError`, so `get_threshold` prints
"UNKNOWN: invalid threshold given" and exits with UNKNOWN. -/
theorem c4_kb_suffix_rejected :
    (∀ cs v, py_float cs = some v → parse_threshold (cs ++ ['K', 'B']) = .exitUnknown)
    ∧ main_block "100KB" "50" false 0 (.readable stdLines) =
      .exited ["UNKNOWN: invalid threshold given"] UNKNOWN :=
  ⟨fun cs _ _ => parse_threshold_kb cs, rfl⟩

theorem c4_kb_suffix_rejected_witness :
    parse_threshold (String.toList "100" ++ ['K', 'B']) = .exitUnknown :=
  c4_kb_suffix_rejected.1 (String.toList "100") 100 rfl

/-- C6: threshold parsing yields `Absolute(float(s))` in KB for every plain
numeric string, the numeric prefix times 1024 for every `M`/`MB` suffix in
any letter case, times 1024*1024 for every `G`/`GB` suffix, percentage mode
for a `%` suffix, and `parse("2GB") = parse("2G")`. -/
theorem c6_parse_units :
    (∀ cs v, py_float cs = some v → parse_threshold cs = .ok v false)
    ∧ (∀ cs v, py_float cs = some v →
      ∀ suf ∈ megs, parse_threshold (cs ++ suf) = .ok (v * 1024) false)
    ∧ (∀ cs v, py_float cs = some v →
      ∀ suf ∈ gigs, parse_threshold (cs ++ suf) = .ok (v * (1024 * 1024)) false)
    ∧ (∀ cs v, py_float cs = some v → parse_threshold (cs ++ ['%']) = .ok v true)
    ∧ parse_threshold (String.toList "2GB") = parse_threshold (String.toList "2G") :=
  ⟨fun _ _ h => parse_threshold_numeric h,
   fun _ _ h => parse_threshold_megs h,
   fun _ _ h => parse_threshold_gigs h,
   fun _ _ h => parse_threshold_percent h,
   rfl⟩

theorem c6_parse_units_witness :
    py_float (String.toList "10") = some 10
    ∧ parse_threshold (String.toList "10" ++ ['M', 'B']) = .ok (10 * 1024) false
    ∧ parse_threshold (String.toList "10" ++ ['G']) = .ok (10 * (1024 * 1024)) false
    ∧ parse_threshold (String.toList "10" ++ ['%']) = .ok 10 true
    ∧ parse_threshold (String.toList "10") = .ok 10 false :=
  ⟨rfl,
   c6_parse_units.2.1 (String.toList "10") 10 rfl ['M', 'B'] (by decide),
   c6_parse_units.2.2.1 (String.toList "10") 10 rfl ['G'] (by decide),
   c6_parse_units.2.2.2.1 (String.toList "10") 10 rfl,
   c6_parse_units.1 (String.toList "10") 10 rfl⟩

/-- C5: evaluation compares critical-first with strict less-than in both
modes; in percentage mode the compared value is the integer truncation
(floor) of `total_free / total * 100`; a metric exactly equal to a threshold
never triggers that threshold and falls to the next-less-severe tier. -/
theorem c5_threshold_comparison (wv cv : ℚ) (nocache : Bool) (t f c b : ℕ)
    (av : Option ℕ) (pre : List String) (ht : 0 < t) :
    (∃ msg, ram_status_eval wv cv true nocache t f c b av pre
      = .ret pre (.pair msg
        (if ((total_free nocache f c b av * 100 / t : ℕ) : ℚ) < cv then CRITICAL
         else if ((total_free nocache f c b av * 100 / t : ℕ) : ℚ) < wv then WARNING
         else OK)))
    ∧ ((total_free nocache f c b av * 100 / t : ℕ) : ℤ)
      = ⌊(total_free nocache f c b av : ℚ) / (t : ℚ) * 100⌋
    ∧ (∃ msg, ram_status_eval wv cv false nocache t f c b av pre
      = .ret pre (.pair msg
        (if ((total_free nocache f c b av : ℕ) : ℚ) < cv then CRITICAL
         else if ((total_free nocache f c b av : ℕ) : ℚ) < wv then WARNING
         else OK)))
    ∧ (((total_free nocache f c b av * 100 / t : ℕ) : ℚ) = cv →
      ∃ msg st, ram_status_eval wv cv true nocache t f c b av pre
        = .ret pre (.pair msg st) ∧ st ≠ CRITICAL)
    ∧ (((total_free nocache f c b av : ℕ) : ℚ) = wv →
      ∃ msg st, ram_status_eval wv cv false nocache t f c b av pre
        = .ret pre (.pair msg st) ∧ st ≠ WARNING) := by
  have htne : t ≠ 0 := Nat.pos_iff_ne_zero.1 ht
  refine ⟨?_, pct_floor_eq _ _ ht, ?_, ?_, ?_⟩
  · rw [ram_eval_true_unfold wv cv nocache t f c b av pre htne]
    split_ifs <;> exact ⟨_, rfl⟩
  · rw [ram_eval_false_unfold wv cv nocache t f c b av pre]
    split_ifs <;> exact ⟨_, rfl⟩
  · intro heq
    rw [ram_eval_true_unfold wv cv nocache t f c b av pre htne, heq]
    split_ifs with h1 h2
    · exact absurd h1 (lt_irrefl cv)
    · exact ⟨_, WARNING, rfl, by decide⟩
    · exact ⟨_, OK, rfl, by decide⟩
  · intro heq
    rw [ram_eval_false_unfold wv cv nocache t f c b av pre, heq]
    split_ifs with h1 h2
    · exact ⟨_, CRITICAL, rfl, by decide⟩
    · exact absurd h2 (lt_irrefl wv)
    · exact ⟨_, OK, rfl, by decide⟩

theorem c5_threshold_comparison_witness :
    (0 : ℕ) < 200
    ∧ (∃ msg, ram_status_eval 40 20 true false 200 100 0 0 none []
      = .ret [] (.pair msg
        (if ((total_free false 100 0 0 none * 100 / 200 : ℕ) : ℚ) < 20 then CRITICAL
         else if ((total_free false 100 0 0 none * 100 / 200 : ℕ) : ℚ) < 40 then WARNING
         else OK))) :=
  ⟨by decide, (c5_threshold_comparison 40 20 false 200 100 0 0 none [] (by decide)).1⟩

/-- C7: the reported used-memory figure is independent of the `no_cache`
flag and of `available_kb`: any two successful runs on the same snapshot
that differ only in those carry the same performance-data tag, whose used
field is always the truncation of
`(total_kb - free_kb - cached_kb - buffers_kb) / 1024`. -/
theorem c7_total_used_independent (wv cv : ℚ) (percent nc₁ nc₂ : Bool)
    (t f c b : ℕ) (av₁ av₂ : Option ℕ) (pre : List String)
    (ht : percent = true → 0 < t) :
    (∃ m s, ram_status_eval wv cv percent nc₁ t f c b av₁ pre
      = .ret pre (.pair (m ++ perf_tag t f c b) s))
    ∧ (∃ m s, ram_status_eval wv cv percent nc₂ t f c b av₂ pre
      = .ret pre (.pair (m ++ perf_tag t f c b) s))
    ∧ perf_tag t f c b = "|memused=" ++ toString (total_used_megs t f c b) ++ ";"
        ++ toString (t / 1024) ++ ";"
    ∧ total_used_megs t f c b
      = Int.tdiv ((t : ℤ) - (f : ℤ) - (c : ℤ) - (b : ℤ)) 1024 := by
  have key : ∀ (nc : Bool) (av : Option ℕ),
      ∃ m s, ram_status_eval wv cv percent nc t f c b av pre
        = .ret pre (.pair (m ++ perf_tag t f c b) s) := by
    intro nc av
    cases percent with
    | true =>
      have htne : t ≠ 0 := Nat.pos_iff_ne_zero.1 (ht rfl)
      rw [ram_eval_true_unfold wv cv nc t f c b av pre htne]
      split_ifs <;> exact ⟨_, _, rfl⟩
    | false =>
      rw [ram_eval_false_unfold wv cv nc t f c b av pre]
      split_ifs <;> exact ⟨_, _, rfl⟩
  exact ⟨key nc₁ av₁, key nc₂ av₂, rfl, rfl⟩

theorem c7_total_used_independent_witness :
    ∃ m s, ram_status_eval 40 20 false true 200 100 0 0 (some 5) []
      = .ret [] (.pair (m ++ perf_tag 200 100 0 0) s) :=
  (c7_total_used_independent 40 20 false true false 200 100 0 0 (some 5) none []
    (by decide)).1

/-- C8: a snapshot missing any of `MemTotal`, `MemFree` or `Cached` makes
`check_ram` report UNKNOWN regardless of the thresholds; `Buffers` defaults
to 0 when absent; a missing `MemAvailable` never by itself yields UNKNOWN. -/
theorem c8_mandatory_fields (wv cv : ℚ) (percent : Bool) (verbosity : ℕ)
    (nocache : Bool) :
    (∀ lines, ((scan_meminfo lines).memtotal = none
        ∨ (scan_meminfo lines).memfree = none
        ∨ (scan_meminfo lines).memcached = none) →
      check_ram wv cv percent verbosity nocache (.readable lines)
        = .ret ((if 3 ≤ verbosity then ["Opening /proc/meminfo"] else [])
            ++ ["UNKNOWN: failed to get mem stats"]) (.int UNKNOWN))
    ∧ (∀ lines, (∀ kv ∈ lines, kv.1 ≠ "Buffers:") →
      (scan_meminfo lines).membuffers = 0)
    ∧ (∀ t f c b pre, (percent = true → 0 < t) →
      ∃ msg st, ram_status_eval wv cv percent nocache t f c b none pre
        = .ret pre (.pair msg st) ∧ st ≠ UNKNOWN) := by
  refine ⟨?_, ?_, ?_⟩
  · intro lines h
    simp only [check_ram]
    rcases h1 : (scan_meminfo lines).memtotal with _ | t <;>
    rcases h2 : (scan_meminfo lines).memfree with _ | f <;>
    rcases h3 : (scan_meminfo lines).memcached with _ | c <;>
    simp only [h1, h2, h3] <;>
    first
      | rfl
      | (rw [h1, h2, h3] at h
         rcases h with h | h | h
         all_goals exact absurd h (by simp))
  · intro lines h
    exact scan_buffers_aux lines initStats h
  · intro t f c b pre ht
    cases percent with
    | true =>
      have htne : t ≠ 0 := Nat.pos_iff_ne_zero.1 (ht rfl)
      rw [ram_eval_true_unfold wv cv nocache t f c b none pre htne]
      split_ifs <;> exact ⟨_, _, rfl, by decide⟩
    | false =>
      rw [ram_eval_false_unfold wv cv nocache t f c b none pre]
      split_ifs <;> exact ⟨_, _, rfl, by decide⟩

theorem c8_mandatory_fields_witness :
    check_ram 40 20 true 0 false (.readable [("MemFree:", 5), ("Cached:", 7)])
      = .ret ((if 3 ≤ 0 then ["Opening /proc/meminfo"] else [])
          ++ ["UNKNOWN: failed to get mem stats"]) (.int UNKNOWN)
    ∧ (scan_meminfo [("MemTotal:", 8), ("MemFree:", 5)]).membuffers = 0
    ∧ (∃ msg st, ram_status_eval 40 20 true false 200 100 0 0 none []
        = .ret [] (.pair msg st) ∧ st ≠ UNKNOWN) :=
  ⟨(c8_mandatory_fields 40 20 true 0 false).1 [("MemFree:", 5), ("Cached:", 7)]
      (Or.inl rfl),
   (c8_mandatory_fields 40 20 true 0 false).2.1 [("MemTotal:", 8), ("MemFree:", 5)]
      (by decide),
   (c8_mandatory_fields 40 20 true 0 false).2.2 200 100 0 0 [] (by decide)⟩

/-- C9: every successful status line ends with the fixed performance tag
`|memused=<used_mb>;<total_mb>;` carrying used and total memory in MB and no
threshold annotations; the OK detail omits the `(U/T MB used)` parenthetical
while WARNING and CRITICAL always include it. -/
theorem c9_status_line_format (wv cv : ℚ) (nocache : Bool) (t f c b : ℕ)
    (av : Option ℕ) (pre : List String) (ht : 0 < t) :
    (∃ msg st, ram_status_eval wv cv true nocache t f c b av pre
      = .ret pre (.pair msg st)
      ∧ ((st = OK ∧ msg = "RAM OK: " ++ toString (total_free nocache f c b av * 100 / t)
            ++ "% ram free" ++ perf_tag t f c b)
        ∨ (st = WARNING ∧ msg = "RAM WARNING: "
            ++ toString (total_free nocache f c b av * 100 / t)
            ++ "% ram free (" ++ toString (total_used_megs t f c b) ++ "/"
            ++ toString (t / 1024) ++ " MB used)" ++ perf_tag t f c b)
        ∨ (st = CRITICAL ∧ msg = "RAM CRITICAL: "
            ++ toString (total_free nocache f c b av * 100 / t)
            ++ "% ram free (" ++ toString (total_used_megs t f c b) ++ "/"
            ++ toString (t / 1024) ++ " MB used)" ++ perf_tag t f c b)))
    ∧ (∃ msg st, ram_status_eval wv cv false nocache t f c b av pre
      = .ret pre (.pair msg st)
      ∧ ((st = OK ∧ msg = "RAM OK: " ++ toString (total_free nocache f c b av / 1024)
            ++ "MB ram free" ++ perf_tag t f c b)
        ∨ (st = WARNING ∧ msg = "RAM WARNING: "
            ++ toString (total_free nocache f c b av / 1024)
            ++ "MB ram free (" ++ toString (total_used_megs t f c b) ++ "/"
            ++ toString (t / 1024) ++ " MB used)" ++ perf_tag t f c b)
        ∨ (st = CRITICAL ∧ msg = "RAM CRITICAL: "
            ++ toString (total_free nocache f c b av / 1024)
            ++ "MB ram free (" ++ toString (total_used_megs t f c b) ++ "/"
            ++ toString (t / 1024) ++ " MB used)" ++ perf_tag t f c b)))
    ∧ perf_tag t f c b = "|memused=" ++ toString (total_used_megs t f c b) ++ ";"
        ++ toString (t / 1024) ++ ";" := by
  have htne : t ≠ 0 := Nat.pos_iff_ne_zero.1 ht
  refine ⟨?_, ?_, rfl⟩
  · rw [ram_eval_true_unfold wv cv nocache t f c b av pre htne]
    split_ifs
    · exact ⟨_, _, rfl, Or.inr (Or.inr ⟨rfl, rfl⟩)⟩
    · exact ⟨_, _, rfl, Or.inr (Or.inl ⟨rfl, rfl⟩)⟩
    · exact ⟨_, _, rfl, Or.inl ⟨rfl, rfl⟩⟩
  · rw [ram_eval_false_unfold wv cv nocache t f c b av pre]
    split_ifs
    · exact ⟨_, _, rfl, Or.inr (Or.inr ⟨rfl, rfl⟩)⟩
    · exact ⟨_, _, rfl, Or.inr (Or.inl ⟨rfl, rfl⟩)⟩
    · exact ⟨_, _, rfl, Or.inl ⟨rfl, rfl⟩⟩

theorem c9_status_line_format_witness :
    ∃ msg st, ram_status_eval 40 20 true false 200 100 0 0 none []
      = .ret [] (.pair msg st)
      ∧ ((st = OK ∧ msg = "RAM OK: " ++ toString (total_free false 100 0 0 none * 100 / 200)
            ++ "% ram free" ++ perf_tag 200 100 0 0)
        ∨ (st = WARNING ∧ msg = "RAM WARNING: "
            ++ toString (total_free false 100 0 0 none * 100 / 200)
            ++ "% ram free (" ++ toString (total_used_megs 200 100 0 0) ++ "/"
            ++ toString (200 / 1024) ++ " MB used)" ++ perf_tag 200 100 0 0)
        ∨ (st = CRITICAL ∧ msg = "RAM CRITICAL: "
            ++ toString (total_free false 100 0 0 none * 100 / 200)
            ++ "% ram free (" ++ toString (total_used_megs 200 100 0 0) ++ "/"
            ++ toString (200 / 1024) ++ " MB used)" ++ perf_tag 200 100 0 0)) :=
  (c9_status_line_format 40 20 false 200 100 0 0 none [] (by decide)).1

/-- C10: the mandatory-field check tests only absence, not zero; with
`total_kb > 0` the percentage evaluation always returns a status line, but a
snapshot carrying `MemTotal: 0` passes the mandatory-field check and reaches
the unguarded division, raising `ZeroDivisionError`. -/
theorem c10_percent_division (wv cv : ℚ) (nocache : Bool) :
    (∀ t f c b av pre, 0 < t →
      ∃ msg st, ram_status_eval wv cv true nocache t f c b av pre
        = .ret pre (.pair msg st))
    ∧ (∀ f c b av pre,
      ram_status_eval wv cv true nocache 0 f c b av pre
        = .raised pre "ZeroDivisionError")
    ∧ (∀ f c b verbosity,
      check_ram wv cv true verbosity nocache
          (.readable [("MemTotal:", 0), ("MemFree:", f), ("Cached:", c), ("Buffers:", b)])
        = .raised (if 3 ≤ verbosity then ["Opening /proc/meminfo"] else [])
            "ZeroDivisionError") := by
  have hzero : ∀ f c b av pre, ram_status_eval wv cv true nocache 0 f c b av pre
      = .raised pre "ZeroDivisionError" := by
    intro f c b av pre
    simp only [ram_status_eval, if_true, eq_self_iff_true]
  refine ⟨?_, hzero, ?_⟩
  · intro t f c b av pre ht
    rw [ram_eval_true_unfold wv cv nocache t f c b av pre (Nat.pos_iff_ne_zero.1 ht)]
    split_ifs <;> exact ⟨_, _, rfl⟩
  · intro f c b verbosity
    have hscan : scan_meminfo [("MemTotal:", 0), ("MemFree:", f), ("Cached:", c), ("Buffers:", b)]
        = ⟨some 0, some f, some c, b, none⟩ := rfl
    simp only [check_ram, hscan]
    exact hzero f c b none _

theorem c10_percent_division_witness :
    ∃ msg st, ram_status_eval 40 20 true false 200 100 0 0 none []
      = .ret [] (.pair msg st) :=
  (c10_percent_division 40 20 false).1 200 100 0 0 none [] (by decide)

end CheckRam
